import Mathlib

/-!
Verification of the CARLA remote-client command arbitration engine
(`use_case_controller.py`): command queue, proximity oracle, lane monitor,
per-tick arbitration loop, episode lifecycle, and the HTTP ingress dispatch.

Modelling conventions:
* real-valued coordinates, thresholds and control fields are `ℚ` (the Python
  floats carry exact decimal constants here);
* the CARLA client, the secondary status sink and the HTTP transport are
  external collaborators: each operation returns, besides the new state, the
  list of status tokens it attempted to send and a `completed` flag that is
  `false` when an uncaught network exception escaped the operation
  (`send_framer_message` performs a bare `requests.get` with no handler, so a
  sink failure propagates out of the caller);
* the write-only field `_agent_positions` (assigned in `too_close_to`, never
  read) is omitted from the state.
-/

/-- Obstacle classes distinguished by `agent.HasField(field)` in
`too_close_to`. -/
inductive Kind where
  | vehicle
  | pedestrian
  | traffic_light
  | speed_limit_sign
deriving DecidableEq

/-- A 3-D location `(x, y, z)`, as unpacked in `distance_between`. -/
structure Pose where
  x : ℚ
  y : ℚ
  z : ℚ
deriving DecidableEq

/-- One non-player agent of a perception snapshot: its oneof class and the
`transform.location` of that class's sub-message. -/
structure Agent where
  kind : Kind
  pos : Pose
deriving DecidableEq

/-- The actuation message `carla.client.VehicleControl`.
Modelled from the spec: the CARLA `VehicleControl` class is an external
dependency not in this repository; per the spec's ControlDirective data model
a freshly constructed directive has steer 0, throttle 0, brake 0,
hand_brake false, reverse false. -/
structure VehicleControl where
  steer : ℚ
  throttle : ℚ
  brake : ℚ
  hand_brake : Bool
  reverse : Bool
deriving DecidableEq

/-- `VehicleControl()` — the all-default fresh directive. -/
def VehicleControl.init : VehicleControl :=
  { steer := 0, throttle := 0, brake := 0, hand_brake := false, reverse := false }

/-- The slice of `measurements.player_measurements` the controller reads:
`transform.location` and `autopilot_control`. -/
structure PlayerMeasurements where
  location : Pose
  autopilot_control : VehicleControl
deriving DecidableEq

/-- One perception snapshot, as returned by `client.read_data()`. -/
structure Measurements where
  player_measurements : PlayerMeasurements
  non_player_agents : List Agent
deriving DecidableEq

/-- The five manual commands held in `enabled_commands`.  The source stores
bound methods and compares them by identity; the identities are exactly these
five variants. -/
inductive Command where
  | steer_left
  | steer_right
  | accelerate
  | decelerate
  | throw_brake
deriving DecidableEq

/-- The mutable state of `CarlaGame` that the arbitration core reads and
writes. -/
structure Game where
  enable_autopilot : Bool
  is_on_reverse : Bool
  measurements : Option Measurements
  enabled_commands : List Command
  vehicle_distance_threshold : ℚ
  traffic_light_distance_threshold : ℚ
  pedestrian_distance_threshold : ℚ
  speed_limit_distance_threshold : ℚ
  lane_tolerance : ℚ
deriving DecidableEq

/-- `CarlaGame.__init__`: autopilot on, reverse off, no measurements yet,
empty command list, and the fixed per-instance thresholds. -/
def initGame : Game :=
  { enable_autopilot := true
    is_on_reverse := false
    measurements := none
    enabled_commands := []
    vehicle_distance_threshold := 30
    traffic_light_distance_threshold := 30
    pedestrian_distance_threshold := 10
    speed_limit_distance_threshold := 20
    lane_tolerance := 0.00002 }

/-- The radicand of `distance_between`: the sum of squared coordinate
differences. -/
def sq_dist (car_position agent_position : Pose) : ℚ :=
  (agent_position.x - car_position.x) ^ 2
    + (agent_position.y - car_position.y) ^ 2
    + (agent_position.z - car_position.z) ^ 2

/-- `distance_between`: `math.sqrt` of the sum of squared differences — the
3-D Euclidean distance. -/
noncomputable def distance_between (car_position agent_position : Pose) : ℝ :=
  Real.sqrt ((sq_dist car_position agent_position : ℚ) : ℝ)

/-- Decidable form of the comparison
`distance_between car agent < distance_threshold` performed inside
`too_close_to`; `close_lt_iff` proves it equal to the source's comparison of
the real square root against the threshold. -/
def close_lt (car_position agent_position : Pose) (distance_threshold : ℚ) : Bool :=
  decide (0 < distance_threshold ∧
    sq_dist car_position agent_position < distance_threshold * distance_threshold)

/-- The ego pose extracted from
`measurements.player_measurements.transform.location`. -/
def car_position (m : Measurements) : Pose :=
  m.player_measurements.location

/-- `too_close_to(field, distance_threshold)`: `False` when no measurements
have been read yet; otherwise scan `non_player_agents` and return `True` on
the first agent of the requested class strictly within the threshold.
(`_city_name` is the constant `MAP_NAME`, so the guard around the
measurements check always runs.) -/
def too_close_to (g : Game) (field : Kind) (distance_threshold : ℚ) : Bool :=
  match g.measurements with
  | none => false
  | some m =>
      m.non_player_agents.any fun agent =>
        agent.kind == field && close_lt (car_position m) agent.pos distance_threshold

/-- `moving_out_of_lane`: the permanent stub — lane geometry unavailable, no
drift ever flagged. -/
def moving_out_of_lane (_g : Game) : Bool :=
  false

/-- `steer_left`: fresh `VehicleControl()`, steer `max(0 - 0.01, -0.05)`,
reverse from the flag, throttle copied from the snapshot's autopilot
directive; the directive is sent to the actuator. -/
def steer_left_control (g : Game) (m : Measurements) : VehicleControl :=
  let control := VehicleControl.init
  { control with
    steer := max (control.steer - 0.01) (-0.05)
    reverse := g.is_on_reverse
    throttle := m.player_measurements.autopilot_control.throttle }

/-- `steer_right`: fresh `VehicleControl()`, steer `min(0 + 0.01, 0.05)`,
reverse from the flag, throttle from the autopilot directive. -/
def steer_right_control (g : Game) (m : Measurements) : VehicleControl :=
  let control := VehicleControl.init
  { control with
    steer := min (control.steer + 0.01) 0.05
    reverse := g.is_on_reverse
    throttle := m.player_measurements.autopilot_control.throttle }

/-- `accelerate`: throttle 1.0, demoted to the autopilot throttle when a
vehicle is too close at execution time; reverse from the flag. -/
def accelerate_control (g : Game) (m : Measurements) : VehicleControl :=
  let control := { VehicleControl.init with throttle := 1.0 }
  let control :=
    if too_close_to g Kind.vehicle g.vehicle_distance_threshold then
      { control with throttle := m.player_measurements.autopilot_control.throttle }
    else control
  { control with reverse := g.is_on_reverse }

/-- `decelerate`: brake 0.5, reverse from the flag. -/
def decelerate_control (g : Game) (_m : Measurements) : VehicleControl :=
  { VehicleControl.init with brake := 0.5, reverse := g.is_on_reverse }

/-- `throw_brake`: hand_brake only — no other field of the fresh directive is
touched (in particular `reverse` stays at its default `false`). -/
def throw_brake_control (_g : Game) (_m : Measurements) : VehicleControl :=
  { VehicleControl.init with hand_brake := true }

/-- Dispatch a queued command identity to the directive it builds and sends.
`m` is the snapshot held in `g.measurements` when the command runs. -/
def run_command (g : Game) (m : Measurements) : Command → VehicleControl
  | Command.steer_left => steer_left_control g m
  | Command.steer_right => steer_right_control g m
  | Command.accelerate => accelerate_control g m
  | Command.decelerate => decelerate_control g m
  | Command.throw_brake => throw_brake_control g m

/-- Observable outcome of one `_on_loop` tick: the updated game state, the
control directives sent to `client.send_control` in order, and the queued
commands actually executed (not skipped). -/
structure TickResult where
  game : Game
  sends : List VehicleControl
  executed : List Command
deriving DecidableEq

/-- `_on_loop`: read one snapshot, then in order — the speed-limit check is a
`pass`; a close traffic light or a close pedestrian routes the snapshot's
autopilot directive and returns; otherwise autopilot-with-empty-queue sends
the autopilot directive (without returning), and the queue is walked in
insertion order, skipping `accelerate` while a vehicle is too close and
skipping the two steer commands while `lane_position_alert` holds. -/
def on_loop (g0 : Game) (m : Measurements) : TickResult :=
  let g : Game := { g0 with measurements := some m }
  -- if too_close_to('speed_limit_sign', ...): pass — no observable effect
  if too_close_to g Kind.traffic_light g.traffic_light_distance_threshold then
    { game := g
      sends := [m.player_measurements.autopilot_control]
      executed := [] }
  else if too_close_to g Kind.pedestrian g.pedestrian_distance_threshold then
    { game := g
      sends := [m.player_measurements.autopilot_control]
      executed := [] }
  else
    let auto_sends :=
      if g.enable_autopilot && g.enabled_commands.length == 0 then
        [m.player_measurements.autopilot_control]
      else []
    let lane_position_alert := moving_out_of_lane g
    let to_execute :=
      if 0 < g.enabled_commands.length then
        g.enabled_commands.filter fun command =>
          !((too_close_to g Kind.vehicle g.vehicle_distance_threshold
                && (command == Command.accelerate))
            || (lane_position_alert && (command == Command.steer_left))
            || (lane_position_alert && (command == Command.steer_right)))
      else []
    { game := g
      sends := auto_sends ++ to_execute.map (run_command g m)
      executed := to_execute }

/-- Outcome of one ingress-triggered queue/episode operation: the new state,
the status tokens handed to `send_framer_message` in order, and whether the
operation returned normally (`false` when the status GET raised and no
handler caught it). -/
structure OpResult where
  game : Game
  sent : List String
  completed : Bool
deriving DecidableEq

/-- `add_left`: append `steer_left` iff absent, then notify `left`. -/
def add_left (g : Game) (sink_ok : Bool) : OpResult :=
  if Command.steer_left ∉ g.enabled_commands then
    { game := { g with enabled_commands := g.enabled_commands ++ [Command.steer_left] }
      sent := ["left"]
      completed := sink_ok }
  else { game := g, sent := [], completed := true }

/-- `remove_left`: remove `steer_left` iff present, then notify `left_stop`. -/
def remove_left (g : Game) (sink_ok : Bool) : OpResult :=
  if Command.steer_left ∈ g.enabled_commands then
    { game := { g with enabled_commands := g.enabled_commands.erase Command.steer_left }
      sent := ["left_stop"]
      completed := sink_ok }
  else { game := g, sent := [], completed := true }

/-- `add_right`: append `steer_right` iff absent, then notify `right`. -/
def add_right (g : Game) (sink_ok : Bool) : OpResult :=
  if Command.steer_right ∉ g.enabled_commands then
    { game := { g with enabled_commands := g.enabled_commands ++ [Command.steer_right] }
      sent := ["right"]
      completed := sink_ok }
  else { game := g, sent := [], completed := true }

/-- `remove_right`: remove `steer_right` iff present, then notify
`right_stop`. -/
def remove_right (g : Game) (sink_ok : Bool) : OpResult :=
  if Command.steer_right ∈ g.enabled_commands then
    { game := { g with enabled_commands := g.enabled_commands.erase Command.steer_right }
      sent := ["right_stop"]
      completed := sink_ok }
  else { game := g, sent := [], completed := true }

/-- `add_accel`: append `accelerate` iff absent, then notify `speed_up`. -/
def add_accel (g : Game) (sink_ok : Bool) : OpResult :=
  if Command.accelerate ∉ g.enabled_commands then
    { game := { g with enabled_commands := g.enabled_commands ++ [Command.accelerate] }
      sent := ["speed_up"]
      completed := sink_ok }
  else { game := g, sent := [], completed := true }

/-- `remove_accel`: remove `accelerate` iff present, then notify
`speed_up_stop`. -/
def remove_accel (g : Game) (sink_ok : Bool) : OpResult :=
  if Command.accelerate ∈ g.enabled_commands then
    { game := { g with enabled_commands := g.enabled_commands.erase Command.accelerate }
      sent := ["speed_up_stop"]
      completed := sink_ok }
  else { game := g, sent := [], completed := true }

/-- `add_decel`: append `decelerate` iff absent, then notify `slow_down`. -/
def add_decel (g : Game) (sink_ok : Bool) : OpResult :=
  if Command.decelerate ∉ g.enabled_commands then
    { game := { g with enabled_commands := g.enabled_commands ++ [Command.decelerate] }
      sent := ["slow_down"]
      completed := sink_ok }
  else { game := g, sent := [], completed := true }

/-- `remove_decel`: remove `decelerate` iff present, then notify
`slow_down_stop`. -/
def remove_decel (g : Game) (sink_ok : Bool) : OpResult :=
  if Command.decelerate ∈ g.enabled_commands then
    { game := { g with enabled_commands := g.enabled_commands.erase Command.decelerate }
      sent := ["slow_down_stop"]
      completed := sink_ok }
  else { game := g, sent := [], completed := true }

/-- `add_brake`: unconditionally replace the whole command list with
`[throw_brake]`, then notify `stop`. -/
def add_brake (g : Game) (sink_ok : Bool) : OpResult :=
  { game := { g with enabled_commands := [Command.throw_brake] }
    sent := ["stop"]
    completed := sink_ok }

/-- `clear`: empty the command list; no notification. -/
def clear (g : Game) : Game :=
  { g with enabled_commands := [] }

/-- `trigger_ap`: flip the autopilot flag, then `clear()`. -/
def trigger_ap (g : Game) : Game :=
  clear { g with enable_autopilot := !g.enable_autopilot }

/-- `trigger_reverse`: flip the reverse flag; nothing else. -/
def trigger_reverse (g : Game) : Game :=
  { g with is_on_reverse := !g.is_on_reverse }

/-- `_on_new_episode`: ask the external client for a fresh episode at
`player_start = 1`, clear the reverse flag and the command list. -/
def on_new_episode (g : Game) : Game :=
  { g with is_on_reverse := false, enabled_commands := [] }

/-- `trigger_reset`: `_on_new_episode` then notify `reset`. -/
def trigger_reset (g : Game) (sink_ok : Bool) : OpResult :=
  { game := on_new_episode g, sent := ["reset"], completed := sink_ok }

/-- Ingress dispatch of the generic spec-level `add(cmd)` onto the per-command
add functions of the source. -/
def add_command (g : Game) (c : Command) (sink_ok : Bool) : OpResult :=
  match c with
  | Command.steer_left => add_left g sink_ok
  | Command.steer_right => add_right g sink_ok
  | Command.accelerate => add_accel g sink_ok
  | Command.decelerate => add_decel g sink_ok
  | Command.throw_brake => add_brake g sink_ok

/-- The status token `add(cmd)` sends on a successful append. -/
def add_token (c : Command) : String :=
  match c with
  | Command.steer_left => "left"
  | Command.steer_right => "right"
  | Command.accelerate => "speed_up"
  | Command.decelerate => "slow_down"
  | Command.throw_brake => "stop"

/-- Whether a command is one of the two steer commands. -/
def isSteer (c : Command) : Bool :=
  c == Command.steer_left || c == Command.steer_right

/-- Outcome of one `do_POST` request: final game state, status tokens sent,
normal completion, the acknowledgement body, and whether a `startserver`
thread was spawned. -/
structure PostResult where
  game : Game
  sent : List String
  completed : Bool
  response : String
  spawned : Bool
deriving DecidableEq

/-- The payload tokens `do_POST` recognises. -/
def known_tokens : List String :=
  ["testmsg", "startserver", "enable_ap", "reset", "left", "left_stop",
   "right", "right_stop", "reverse", "forward", "forward_stop",
   "backward", "backward_stop", "stop", "clear"]

/-- Lift a `Game → Game` mutation into a `PostResult`. -/
def postPure (g : Game) : PostResult :=
  { game := g, sent := [], completed := true, response := "POST!", spawned := false }

/-- Lift an `OpResult` into a `PostResult`. -/
def postOp (r : OpResult) : PostResult :=
  { game := r.game, sent := r.sent, completed := r.completed
    response := "POST!", spawned := false }

/-- `do_POST`: the 200 acknowledgement (`POST!`) is written before the
payload is cased on; the payload comparisons are sequential `if`s against
pairwise-distinct string constants, so they are rendered as an `if`/`else`
chain; an unmatched payload falls through with no dispatch. -/
def do_POST (content : String) (g : Game) (sink_ok : Bool) : PostResult :=
  if content == "testmsg" then postPure g
  else if content == "startserver" then { postPure g with spawned := true }
  else if content == "enable_ap" then postPure (trigger_ap g)
  else if content == "reset" then postOp (trigger_reset g sink_ok)
  else if content == "left" then postOp (add_left g sink_ok)
  else if content == "left_stop" then postOp (remove_left g sink_ok)
  else if content == "right" then postOp (add_right g sink_ok)
  else if content == "right_stop" then postOp (remove_right g sink_ok)
  else if content == "reverse" then postPure (trigger_reverse g)
  else if content == "forward" then postOp (add_accel g sink_ok)
  else if content == "forward_stop" then postOp (remove_accel g sink_ok)
  else if content == "backward" then postOp (add_decel g sink_ok)
  else if content == "backward_stop" then postOp (remove_decel g sink_ok)
  else if content == "stop" then postOp (add_brake g sink_ok)
  else if content == "clear" then postPure (clear g)
  else postPure g

/-- Fixture: engine state with autopilot disabled and `accelerate` queued. -/
def c3_game : Game :=
  { initGame with
    enable_autopilot := false
    enabled_commands := [Command.accelerate] }

/-- Fixture: snapshot with the ego at the origin and a single pedestrian at
distance 5 (pedestrian threshold is 10). -/
def c3_meas : Measurements :=
  { player_measurements :=
      { location := { x := 0, y := 0, z := 0 }
        autopilot_control := { VehicleControl.init with throttle := 0.3 } }
    non_player_agents := [{ kind := Kind.pedestrian, pos := { x := 5, y := 0, z := 0 } }] }

/-- Fixture: an empty snapshot, for exercising command execution directly. -/
def c5_meas : Measurements :=
  { player_measurements :=
      { location := { x := 0, y := 0, z := 0 }
        autopilot_control := VehicleControl.init }
    non_player_agents := [] }

/-- Fixture: engine state with the reverse flag set. -/
def c5_game : Game :=
  { initGame with is_on_reverse := true, measurements := some c5_meas }

theorem close_lt_iff (car_position agent_position : Pose) (t : ℚ) :
    close_lt car_position agent_position t = true ↔
      distance_between car_position agent_position < (t : ℝ) := by
  unfold close_lt distance_between
  rw [decide_eq_true_iff]
  constructor
  · rintro ⟨ht, hlt⟩
    have ht' : (0 : ℝ) < (t : ℝ) := by exact_mod_cast ht
    rw [Real.sqrt_lt' ht']
    have h2 : ((sq_dist car_position agent_position : ℚ) : ℝ) < ((t * t : ℚ) : ℝ) := by
      exact_mod_cast hlt
    calc ((sq_dist car_position agent_position : ℚ) : ℝ)
        < ((t * t : ℚ) : ℝ) := h2
      _ = (t : ℝ) ^ 2 := by push_cast; ring
  · intro h
    have hnn : (0 : ℝ) ≤ Real.sqrt ((sq_dist car_position agent_position : ℚ) : ℝ) :=
      Real.sqrt_nonneg _
    have ht' : (0 : ℝ) < (t : ℝ) := lt_of_le_of_lt hnn h
    have ht : 0 < t := by exact_mod_cast ht'
    refine ⟨ht, ?_⟩
    have hlt := (Real.sqrt_lt' ht').mp h
    have h2 : ((sq_dist car_position agent_position : ℚ) : ℝ) < ((t * t : ℚ) : ℝ) := by
      calc ((sq_dist car_position agent_position : ℚ) : ℝ)
          < (t : ℝ) ^ 2 := hlt
        _ = ((t * t : ℚ) : ℝ) := by push_cast; ring
    exact_mod_cast h2

/-- C1 counterexample: starting from the freshly constructed engine, the
operation sequence `add_brake(); add_left()` leaves the queue
`[throw_brake, steer_left]` — brake is present but is not the only member,
refuting the claimed persistent exclusivity invariant. -/
theorem brake_exclusivity_counterexample :
    Command.throw_brake ∈
        (add_left (add_brake initGame true).game true).game.enabled_commands ∧
    (add_left (add_brake initGame true).game true).game.enabled_commands ≠
        [Command.throw_brake] ∧
    (add_left (add_brake initGame true).game true).game.enabled_commands =
        [Command.throw_brake, Command.steer_left] := by
  decide

/-- C1 (amended): `add_brake()` atomically replaces the queue with exactly the
brake command, but a subsequent `add(cmd)` for any `cmd ≠ brake` appends `cmd`
alongside brake, so brake exclusivity holds only until the next add, not until
brake is explicitly removed or the queue cleared. -/
theorem add_brake_replaces_then_add_appends (g : Game) (s s' : Bool) (c : Command)
    (hc : c ≠ Command.throw_brake) :
    (add_brake g s).game.enabled_commands = [Command.throw_brake] ∧
    (add_command (add_brake g s).game c s').game.enabled_commands =
      [Command.throw_brake, c] := by
  refine ⟨rfl, ?_⟩
  cases c with
  | throw_brake => exact absurd rfl hc
  | steer_left => simp [add_command, add_left, add_brake]
  | steer_right => simp [add_command, add_right, add_brake]
  | accelerate => simp [add_command, add_accel, add_brake]
  | decelerate => simp [add_command, add_decel, add_brake]

/-- Witness for `add_brake_replaces_then_add_appends` at
`g = initGame, c = steer_left`. -/
theorem add_brake_replaces_then_add_appends_witness :
    Command.steer_left ≠ Command.throw_brake ∧
    ((add_brake initGame true).game.enabled_commands = [Command.throw_brake] ∧
     (add_command (add_brake initGame true).game Command.steer_left true).game.enabled_commands =
       [Command.throw_brake, Command.steer_left]) :=
  ⟨by decide,
   add_brake_replaces_then_add_appends initGame true true Command.steer_left (by decide)⟩

/-- C5 counterexample: with the reverse flag set, executing the queued brake
command produces a directive whose `reverse` field is `false` —
`throw_brake` builds a fresh `VehicleControl()` and never copies the flag. -/
theorem reverse_flag_brake_counterexample :
    c5_game.is_on_reverse = true ∧
    (run_command c5_game c5_meas Command.throw_brake).reverse = false := by
  decide

/-- C5 (amended): `trigger_reverse` flips only the reverse flag (autopilot
flag, measurements, queue and all thresholds are untouched); directives built
by the steer-left, steer-right, accelerate and decelerate commands carry the
current reverse flag, while the brake directive's `reverse` field is always
`false` regardless of the flag. -/
theorem trigger_reverse_only_flag_and_directives (g : Game) (m : Measurements) :
    (trigger_reverse g).is_on_reverse = !g.is_on_reverse ∧
    (trigger_reverse g).enabled_commands = g.enabled_commands ∧
    (trigger_reverse g).enable_autopilot = g.enable_autopilot ∧
    (trigger_reverse g).measurements = g.measurements ∧
    (trigger_reverse g).vehicle_distance_threshold = g.vehicle_distance_threshold ∧
    (trigger_reverse g).traffic_light_distance_threshold = g.traffic_light_distance_threshold ∧
    (trigger_reverse g).pedestrian_distance_threshold = g.pedestrian_distance_threshold ∧
    (trigger_reverse g).speed_limit_distance_threshold = g.speed_limit_distance_threshold ∧
    (trigger_reverse g).lane_tolerance = g.lane_tolerance ∧
    (run_command g m Command.steer_left).reverse = g.is_on_reverse ∧
    (run_command g m Command.steer_right).reverse = g.is_on_reverse ∧
    (run_command g m Command.accelerate).reverse = g.is_on_reverse ∧
    (run_command g m Command.decelerate).reverse = g.is_on_reverse ∧
    (run_command g m Command.throw_brake).reverse = false :=
  ⟨rfl, rfl, rfl, rfl, rfl, rfl, rfl, rfl, rfl, rfl, rfl, rfl, rfl, rfl⟩

/-- C6 counterexample: when the status sink is down, `add_left` on the fresh
engine still mutates the queue, attempts the `left` notification, and then
does *not* return normally — the network exception escapes the operation
(`send_framer_message` has no handler). -/
theorem notification_failure_counterexample :
    (add_left initGame false).game.enabled_commands = [Command.steer_left] ∧
    (add_left initGame false).sent = ["left"] ∧
    (add_left initGame false).completed = false := by
  decide

/-- C6 (amended): for every notifying queue/episode mutation — `add` of an
absent command, `remove` of a present command, `addBrake`, `reset` — the state
mutation precedes the notification attempt and therefore persists even when
the sink is down, but the delivery failure propagates as an uncaught
exception, so the originating operation does not return normally; an `add` of
a present command or a `remove` of an absent command attempts no notification
and returns normally. -/
theorem notification_failure_propagates (g g' : Game)
    (h : Command.steer_left ∉ g.enabled_commands)
    (h' : Command.steer_left ∈ g'.enabled_commands) :
    (add_left g false).game.enabled_commands =
        g.enabled_commands ++ [Command.steer_left] ∧
    (add_left g false).sent = ["left"] ∧
    (add_left g false).completed = false ∧
    (remove_left g' false).game.enabled_commands =
        g'.enabled_commands.erase Command.steer_left ∧
    (remove_left g' false).sent = ["left_stop"] ∧
    (remove_left g' false).completed = false ∧
    (add_brake g false).game.enabled_commands = [Command.throw_brake] ∧
    (add_brake g false).completed = false ∧
    (trigger_reset g false).game.enabled_commands = [] ∧
    (trigger_reset g false).game.is_on_reverse = false ∧
    (trigger_reset g false).completed = false ∧
    (remove_left g false).game = g ∧
    (remove_left g false).completed = true ∧
    (add_left g' false).game = g' ∧
    (add_left g' false).completed = true := by
  simp [add_left, add_brake, trigger_reset, on_new_episode, remove_left, h, h']

/-- Witness for `notification_failure_propagates` at `g = initGame` (no
`steer_left` queued) and `g' = (add_left initGame true).game` (queue
`[steer_left]`). -/
theorem notification_failure_propagates_witness :
    Command.steer_left ∉ initGame.enabled_commands ∧
    Command.steer_left ∈ (add_left initGame true).game.enabled_commands ∧
    ((add_left initGame false).game.enabled_commands =
        initGame.enabled_commands ++ [Command.steer_left] ∧
     (add_left initGame false).sent = ["left"] ∧
     (add_left initGame false).completed = false ∧
     (remove_left (add_left initGame true).game false).game.enabled_commands =
        (add_left initGame true).game.enabled_commands.erase Command.steer_left ∧
     (remove_left (add_left initGame true).game false).sent = ["left_stop"] ∧
     (remove_left (add_left initGame true).game false).completed = false ∧
     (add_brake initGame false).game.enabled_commands = [Command.throw_brake] ∧
     (add_brake initGame false).completed = false ∧
     (trigger_reset initGame false).game.enabled_commands = [] ∧
     (trigger_reset initGame false).game.is_on_reverse = false ∧
     (trigger_reset initGame false).completed = false ∧
     (remove_left initGame false).game = initGame ∧
     (remove_left initGame false).completed = true ∧
     (add_left (add_left initGame true).game false).game = (add_left initGame true).game ∧
     (add_left (add_left initGame true).game false).completed = true) :=
  ⟨by decide, by decide,
   notification_failure_propagates initGame (add_left initGame true).game
     (by decide) (by decide)⟩

/-- C7: `trigger_reset` mid-episode leaves the command queue empty and the
reverse flag false, whatever the prior queue contents and flag value. -/
theorem reset_clears_queue_and_reverse (g : Game) (s : Bool) :
    (trigger_reset g s).game.enabled_commands = [] ∧
    (trigger_reset g s).game.is_on_reverse = false :=
  ⟨rfl, rfl⟩

/-- C9: `_on_new_episode` resets only the reverse flag and the command queue —
the autopilot flag (initially `true` at construction), the held measurements
and every threshold retain their prior values. -/
theorem new_episode_preserves_autopilot (g : Game) :
    (on_new_episode g).enable_autopilot = g.enable_autopilot ∧
    (on_new_episode g).is_on_reverse = false ∧
    (on_new_episode g).enabled_commands = [] ∧
    (on_new_episode g).measurements = g.measurements ∧
    (on_new_episode g).vehicle_distance_threshold = g.vehicle_distance_threshold ∧
    (on_new_episode g).traffic_light_distance_threshold = g.traffic_light_distance_threshold ∧
    (on_new_episode g).pedestrian_distance_threshold = g.pedestrian_distance_threshold ∧
    (on_new_episode g).speed_limit_distance_threshold = g.speed_limit_distance_threshold ∧
    (on_new_episode g).lane_tolerance = g.lane_tolerance ∧
    initGame.enable_autopilot = true :=
  ⟨rfl, rfl, rfl, rfl, rfl, rfl, rfl, rfl, rfl, rfl⟩

/-- C10: every directive built by `steer_left` has steer exactly `-0.01` and
every directive built by `steer_right` has steer exactly `0.01`: each call
starts from the fresh default steer `0`, so the `±0.05` clamp never binds and
steering never accumulates across ticks. -/
theorem steer_commands_fixed_deltas (g : Game) (m : Measurements) :
    VehicleControl.init.steer = 0 ∧
    (run_command g m Command.steer_left).steer = -0.01 ∧
    (run_command g m Command.steer_right).steer = 0.01 := by
  refine ⟨rfl, ?_, ?_⟩
  · show max ((0 : ℚ) - 0.01) (-0.05) = -0.01
    norm_num [max_def]
  · show min ((0 : ℚ) + 0.01) 0.05 = 0.01
    norm_num [min_def]

/-- C2: `too_close_to` returns `true` iff measurements are present and at
least one obstacle of the matching kind lies at 3-D Euclidean distance
strictly less than the threshold from the ego pose; in particular it returns
`false` when the snapshot is absent and when the obstacle list is empty. -/
theorem tooCloseTo_iff_close_obstacle (g : Game) (field : Kind) (t : ℚ) :
    too_close_to g field t = true ↔
      ∃ m, g.measurements = some m ∧
        ∃ a ∈ m.non_player_agents, a.kind = field ∧
          distance_between (car_position m) a.pos < (t : ℝ) := by
  unfold too_close_to
  rcases h : g.measurements with _ | m
  · simp [h]
  · simp only [h, Option.some.injEq, List.any_eq_true, Bool.and_eq_true,
      beq_iff_eq, close_lt_iff]
    constructor
    · rintro ⟨a, ha, hk, hd⟩
      exact ⟨m, rfl, a, ha, hk, hd⟩
    · rintro ⟨m', hm', a, ha, hk, hd⟩
      cases hm'
      exact ⟨a, ha, hk, hd⟩

/-- C3: when no traffic light is within its threshold but a pedestrian is
within the pedestrian threshold, the tick routes exactly the snapshot's
autopilot directive and executes zero queued commands — regardless of the
autopilot flag being off and the queue containing `accelerate`. -/
theorem pedestrian_override_tick (g : Game) (m : Measurements)
    (hlight : too_close_to { g with measurements := some m } Kind.traffic_light
        g.traffic_light_distance_threshold = false)
    (hped : too_close_to { g with measurements := some m } Kind.pedestrian
        g.pedestrian_distance_threshold = true)
    (_hap : g.enable_autopilot = false)
    (_hq : Command.accelerate ∈ g.enabled_commands) :
    (on_loop g m).sends = [m.player_measurements.autopilot_control] ∧
    (on_loop g m).executed = [] := by
  unfold on_loop
  simp [hlight, hped]

/-- The fixture pedestrian at `(5, 0, 0)` is within the pedestrian threshold
10 of the ego at the origin. -/
theorem c3_pedestrian_close :
    too_close_to { c3_game with measurements := some c3_meas } Kind.pedestrian
      c3_game.pedestrian_distance_threshold = true := by
  norm_num [too_close_to, c3_game, c3_meas, initGame, close_lt, sq_dist,
    car_position, VehicleControl.init]

/-- Witness for `pedestrian_override_tick`: ego at the origin, one pedestrian
at distance 5 with threshold 10, autopilot disabled, queue `[accelerate]`. -/
theorem pedestrian_override_tick_witness :
    (too_close_to { c3_game with measurements := some c3_meas } Kind.traffic_light
        c3_game.traffic_light_distance_threshold = false) ∧
    (too_close_to { c3_game with measurements := some c3_meas } Kind.pedestrian
        c3_game.pedestrian_distance_threshold = true) ∧
    c3_game.enable_autopilot = false ∧
    Command.accelerate ∈ c3_game.enabled_commands ∧
    ((on_loop c3_game c3_meas).sends = [c3_meas.player_measurements.autopilot_control] ∧
     (on_loop c3_game c3_meas).executed = []) :=
  ⟨by decide, c3_pedestrian_close, by decide, by decide,
   pedestrian_override_tick c3_game c3_meas (by decide) c3_pedestrian_close
     (by decide) (by decide)⟩

/-- C4: for any non-brake command, `add` appends iff the command is absent
(the lane-drift gate for steer commands is supplied as a hypothesis, which the
permanent `moving_out_of_lane = false` stub always discharges); a successful
append sends exactly the command's status token, a duplicate add is a silent
no-op, and a double add leaves exactly one instance in the queue. -/
theorem add_command_spec (g : Game) (c : Command) (s s' : Bool)
    (hc : c ≠ Command.throw_brake)
    (hlane : isSteer c = true → moving_out_of_lane g = false)
    (hcount : g.enabled_commands.count c ≤ 1) :
    (add_command g c s).game.enabled_commands =
      (if c ∈ g.enabled_commands then g.enabled_commands
       else g.enabled_commands ++ [c]) ∧
    (add_command g c s).sent =
      (if c ∈ g.enabled_commands then [] else [add_token c]) ∧
    (c ∈ g.enabled_commands → (add_command g c s).game = g) ∧
    (add_command (add_command g c s).game c s').game.enabled_commands.count c = 1 := by
  have hmain : ∀ (g' : Game) (t : Bool),
      (add_command g' c t).game.enabled_commands =
        (if c ∈ g'.enabled_commands then g'.enabled_commands
         else g'.enabled_commands ++ [c]) ∧
      (add_command g' c t).sent =
        (if c ∈ g'.enabled_commands then [] else [add_token c]) ∧
      (c ∈ g'.enabled_commands → (add_command g' c t).game = g') := by
    intro g' t
    cases c with
    | throw_brake => exact absurd rfl hc
    | steer_left =>
        by_cases h : Command.steer_left ∈ g'.enabled_commands <;>
          simp [add_command, add_left, add_token, h]
    | steer_right =>
        by_cases h : Command.steer_right ∈ g'.enabled_commands <;>
          simp [add_command, add_right, add_token, h]
    | accelerate =>
        by_cases h : Command.accelerate ∈ g'.enabled_commands <;>
          simp [add_command, add_accel, add_token, h]
    | decelerate =>
        by_cases h : Command.decelerate ∈ g'.enabled_commands <;>
          simp [add_command, add_decel, add_token, h]
  refine ⟨(hmain g s).1, (hmain g s).2.1, (hmain g s).2.2, ?_⟩
  by_cases h : c ∈ g.enabled_commands
  · rw [(hmain g s).2.2 h, (hmain g s').1, if_pos h]
    exact Nat.le_antisymm hcount (List.count_pos_iff.mpr h)
  · have h1 : (add_command g c s).game.enabled_commands =
        g.enabled_commands ++ [c] := by
      rw [(hmain g s).1, if_neg h]
    have h2 : c ∈ (add_command g c s).game.enabled_commands := by
      rw [h1]; exact List.mem_append_right _ (List.mem_singleton_self c)
    rw [(hmain (add_command g c s).game s').1, if_pos h2, h1]
    simp [List.count_append, List.count_eq_zero_of_not_mem h]

/-- Witness for `add_command_spec` at `g = initGame, c = accelerate`. -/
theorem add_command_spec_witness :
    Command.accelerate ≠ Command.throw_brake ∧
    (isSteer Command.accelerate = true → moving_out_of_lane initGame = false) ∧
    initGame.enabled_commands.count Command.accelerate ≤ 1 ∧
    ((add_command initGame Command.accelerate true).game.enabled_commands =
       (if Command.accelerate ∈ initGame.enabled_commands then initGame.enabled_commands
        else initGame.enabled_commands ++ [Command.accelerate]) ∧
     (add_command initGame Command.accelerate true).sent =
       (if Command.accelerate ∈ initGame.enabled_commands then []
        else [add_token Command.accelerate]) ∧
     (Command.accelerate ∈ initGame.enabled_commands →
        (add_command initGame Command.accelerate true).game = initGame) ∧
     (add_command (add_command initGame Command.accelerate true).game
        Command.accelerate true).game.enabled_commands.count Command.accelerate = 1) :=
  ⟨by decide, by decide, by decide,
   add_command_spec initGame Command.accelerate true true (by decide) (by decide) (by decide)⟩

/-- C8: an ingress payload matching no known command token causes no state
change, attempts no notification, completes normally, and is answered with
the plain `POST!` acknowledgement (no server thread is spawned). -/
theorem unknown_payload_no_state_change (content : String) (g : Game) (s : Bool)
    (h : content ∉ known_tokens) :
    (do_POST content g s).game = g ∧
    (do_POST content g s).sent = [] ∧
    (do_POST content g s).completed = true ∧
    (do_POST content g s).response = "POST!" ∧
    (do_POST content g s).spawned = false := by
  have hne : ∀ tok, tok ∈ known_tokens → (content == tok) = false := by
    intro tok htok
    rw [beq_eq_false_iff_ne]
    intro hx
    exact h (hx ▸ htok)
  simp [do_POST, postPure,
    hne "testmsg" (by decide), hne "startserver" (by decide),
    hne "enable_ap" (by decide), hne "reset" (by decide),
    hne "left" (by decide), hne "left_stop" (by decide),
    hne "right" (by decide), hne "right_stop" (by decide),
    hne "reverse" (by decide), hne "forward" (by decide),
    hne "forward_stop" (by decide), hne "backward" (by decide),
    hne "backward_stop" (by decide), hne "stop" (by decide),
    hne "clear" (by decide)]

/-- Witness for `unknown_payload_no_state_change` at the unknown payload
`bogus`. -/
theorem unknown_payload_no_state_change_witness :
    "bogus" ∉ known_tokens ∧
    ((do_POST "bogus" initGame true).game = initGame ∧
     (do_POST "bogus" initGame true).sent = [] ∧
     (do_POST "bogus" initGame true).completed = true ∧
     (do_POST "bogus" initGame true).response = "POST!" ∧
     (do_POST "bogus" initGame true).spawned = false) :=
  ⟨by decide, unknown_payload_no_state_change "bogus" initGame true (by decide)⟩
